import Mathlib

/-!
Verification of the One_Tab_Browser repository (src/Browser/main.py).

The program is a single-window PyQt browser.  The parts relevant to the
claims are pure or easily made so:

* `AdBlocker.__init__` reads `blocklist.txt` into a Python `set` of
  stripped, non-empty lines (empty set when the file is missing).
* `AdBlocker.interceptRequest` allows every request when the
  `ad_block_enabled` setting is falsy, otherwise blocks exactly when some
  blocked domain is a substring of the request URL.
* `Browser.load_settings` returns the parsed settings file, or a default
  record when the file is missing.
* `SettingsDialog.save_settings_and_close` writes the three widget values
  into the settings dict and dumps the dict to the settings file.
* `Browser.closeEvent` dumps the settings dict to the settings file.
* `Browser.get_search_url` maps the `search_engine` setting and a query to
  a search URL, encoding spaces as plus signs.
* `Browser.navigate_to_url` loads the address-bar text verbatim when it
  starts with "http", otherwise loads the search URL for that text.

Python dicts holding the settings are embedded as association lists of
string keys and `PyVal` values (only booleans and strings occur in this
program).  The JSON layer (`json.dump` / `json.load`) is an external
library; the settings file is modelled as `Option PyDict`: `none` when the
file is missing, `some d` when the file holds the JSON serialization of
the dict `d`.  Likewise the blocklist file is `Option String` holding the
raw text.  Methods that mutate state are embedded as explicit state
transformers.  String primitives used by the program (`str.strip`,
`str.startswith`, `in`, single-character `str.replace`) are given
executable list-based models so that concrete runs reduce in the kernel.
-/

/-- A Python value as it occurs in the settings dict of this program:
either a boolean or a string. -/
inductive PyVal where
  | bool : Bool → PyVal
  | str : String → PyVal
deriving DecidableEq, Repr

/-- A Python dict with string keys, embedded as an association list.
Key insertion (`PyDict.setKey`) keeps at most one binding per key. -/
abbrev PyDict := List (String × PyVal)

/-- Dict lookup: the value bound to `k`, if any. -/
def PyDict.get? (d : PyDict) (k : String) : Option PyVal :=
  (d.find? (fun kv => kv.1 == k)).map (fun kv => kv.2)

/-- Python `d.get(k, dflt)`: the value bound to `k`, or `dflt` when the
key is absent. -/
def PyDict.get (d : PyDict) (k : String) (dflt : PyVal) : PyVal :=
  (d.get? k).getD dflt

/-- Python `d[k] = v`: replace the binding of `k`, or append one. -/
def PyDict.setKey (d : PyDict) (k : String) (v : PyVal) : PyDict :=
  match d with
  | [] => [(k, v)]
  | kv :: rest =>
      if kv.1 = k then (k, v) :: rest else kv :: PyDict.setKey rest k v

/-- Python truthiness of a `PyVal` (`bool(v)`): a boolean is itself, a
string is truthy iff non-empty. -/
def PyVal.truthy : PyVal → Bool
  | .bool b => b
  | .str s => !(s == "")

/-- The whitespace characters removed by Python `str.strip()` (ASCII
subset; the program only deals with ASCII blocklist files). -/
def pyWhitespace (c : Char) : Bool :=
  c == ' ' || c == '\t' || c == '\n' || c == '\r' ||
  c == Char.ofNat 11 || c == Char.ofNat 12

/-- Python `s.strip()`: drop leading and trailing whitespace. -/
def pyStrip (s : String) : String :=
  String.mk (((s.data.dropWhile pyWhitespace).reverse.dropWhile pyWhitespace).reverse)

/-- Python `s.startswith(p)`. -/
def pyStartsWith (s p : String) : Bool :=
  p.data.isPrefixOf s.data

/-- Does `needle` occur as a contiguous run inside `hay`? -/
def listHasInfix (needle : List Char) : List Char → Bool
  | [] => needle.isEmpty
  | c :: t => needle.isPrefixOf (c :: t) || listHasInfix needle t

/-- Python `needle in hay` on strings: substring containment. -/
def strContains (hay needle : String) : Bool :=
  listHasInfix needle.data hay.data

/-- Python `s.replace(old, new)` for a single-character pattern and
replacement, as used by `get_search_url` (`query.replace(" ", "+")`):
replacing every occurrence of one character is a per-character map. -/
def pyReplaceChar (s : String) (old new : Char) : String :=
  String.mk (s.data.map (fun c => if c = old then new else c))

/-- The decision the request interceptor communicates to the engine:
`block` when it calls `info.block(True)`, `allow` when it returns without
doing so. -/
inductive Decision where
  | block : Decision
  | allow : Decision
deriving DecidableEq, Repr

/-- The state of an `AdBlocker` object: the settings dict it was handed
and the `blocked_domains` set (embedded as a deduplicated list). -/
structure AdBlockerState where
  settings : PyDict
  blocked_domains : List String
deriving Repr

/-- Python truthiness of a string: non-empty. -/
def String.truthyStr (s : String) : Bool :=
  !(s == "")

/-- `AdBlocker.__init__`, blocklist part: read `blocklist.txt` and build
`set(line.strip() for line in file if line.strip())`; a missing file
(`FileNotFoundError`) yields the empty set.  File iteration yields the
text split at newlines; each line is stripped and falsy (empty) lines are
discarded; `set` deduplicates. -/
def AdBlocker.initBlockedDomains (blocklistFile : Option String) : List String :=
  match blocklistFile with
  | none => []
  | some content =>
      (((content.data.splitOn '\n').map
          (fun l => pyStrip (String.mk l))).filter
          (fun s => s.truthyStr)).dedup

/-- `AdBlocker.interceptRequest`: when `settings.get("ad_block_enabled",
True)` is falsy, return (allow); otherwise block iff some blocked domain
is a substring of the URL.  The method is embedded as a state transformer
to record that it writes no attribute of the object. -/
def AdBlocker.interceptRequest (self : AdBlockerState) (url : String) :
    AdBlockerState × Decision :=
  if !(self.settings.get "ad_block_enabled" (.bool true)).truthy then
    (self, .allow)
  else if self.blocked_domains.any (fun domain => strContains url domain) then
    (self, .block)
  else
    (self, .allow)

/-- The widget state of the settings dialog when Save is clicked. -/
structure SettingsDialogState where
  adblock_checkbox : Bool
  darkmode_checkbox : Bool
  search_engine_combo : String
deriving Repr

/-- `SettingsDialog.save_settings_and_close`: write the three widget
values into the settings dict, then dump the dict to `settings.json`.
Returns the updated in-memory dict and the new settings-file content. -/
def SettingsDialog.save_settings_and_close (dlg : SettingsDialogState)
    (settings : PyDict) : PyDict × Option PyDict :=
  let s1 := settings.setKey "ad_block_enabled" (.bool dlg.adblock_checkbox)
  let s2 := s1.setKey "dark_mode" (.bool dlg.darkmode_checkbox)
  let s3 := s2.setKey "search_engine" (.str dlg.search_engine_combo)
  (s3, some s3)

/-- The default settings record returned by `Browser.load_settings` when
`settings.json` does not exist. -/
def Browser.defaultSettings : PyDict :=
  [("ad_block_enabled", .bool true),
   ("dark_mode", .bool false),
   ("search_engine", .str "DuckDuckGo")]

/-- `Browser.load_settings`: parse `settings.json` when it exists,
otherwise return the default record. -/
def Browser.load_settings (settingsFile : Option PyDict) : PyDict :=
  match settingsFile with
  | some d => d
  | none => Browser.defaultSettings

/-- `Browser.closeEvent`: dump the in-memory settings dict to
`settings.json` and accept the event.  Returns the new file content. -/
def Browser.closeEvent (settings : PyDict) : Option PyDict :=
  some settings

/-- `Browser.get_search_url`: pick the URL template from the
`search_engine` setting (default "DuckDuckGo", unknown values fall through
to the DuckDuckGo template) and append the query with spaces replaced by
plus signs. -/
def Browser.get_search_url (settings : PyDict) (query : String) : String :=
  let engine := settings.get "search_engine" (.str "DuckDuckGo")
  let encoded := pyReplaceChar query ' ' '+'
  if engine = .str "DuckDuckGo" then
    "https://duckduckgo.com/?q=" ++ encoded
  else if engine = .str "Google" then
    "https://www.google.com/search?q=" ++ encoded
  else if engine = .str "Startpage" then
    "https://www.startpage.com/do/search?query=" ++ encoded
  else if engine = .str "Brave" then
    "https://search.brave.com/search?q=" ++ encoded
  else
    "https://duckduckgo.com/?q=" ++ encoded

/-- `Browser.navigate_to_url`: the URL handed to the web view for a given
address-bar text: the text itself when it starts with "http", otherwise
the search URL for it. -/
def Browser.navigate_to_url (settings : PyDict) (text : String) : String :=
  if pyStartsWith text "http" then text
  else Browser.get_search_url settings text

/-! ## Claims -/

/-- C1: for every settings dict, blocklist and URL, when the ad-block
toggle is enabled (truthy) the interceptor decides `block` iff the URL
contains some blocklisted substring, and when the toggle is disabled it
decides `allow` regardless of the blocklist. -/
theorem adblock_filter_decision (settings : PyDict) (blocked : List String)
    (url : String) :
    ((settings.get "ad_block_enabled" (PyVal.bool true)).truthy = true →
      ((AdBlocker.interceptRequest ⟨settings, blocked⟩ url).2 = Decision.block ↔
        ∃ d ∈ blocked, strContains url d = true)) ∧
    ((settings.get "ad_block_enabled" (PyVal.bool true)).truthy = false →
      (AdBlocker.interceptRequest ⟨settings, blocked⟩ url).2 = Decision.allow) := by
  constructor
  · intro h
    by_cases hb : blocked.any (fun domain => strContains url domain) = true
    · simp only [AdBlocker.interceptRequest, h, Bool.not_true,
        Bool.false_eq_true, if_false, hb, if_true]
      simpa using List.any_eq_true.mp hb
    · simp only [AdBlocker.interceptRequest, h, Bool.not_true,
        Bool.false_eq_true, if_false, hb, if_false]
      constructor
      · intro hc
        exact absurd hc (by simp)
      · intro hex
        exact absurd (List.any_eq_true.mpr hex) hb
  · intro h
    simp [AdBlocker.interceptRequest, h]

/-- Witness for C1 at a concrete blocklist and URL: enabled blocks a
matching URL, disabled allows it. -/
theorem adblock_filter_decision_witness :
    (AdBlocker.interceptRequest
      ⟨[("ad_block_enabled", PyVal.bool true)], ["ads"]⟩
      "http://x.ads.com/banner").2 = Decision.block ∧
    (AdBlocker.interceptRequest
      ⟨[("ad_block_enabled", PyVal.bool false)], ["ads"]⟩
      "http://x.ads.com/banner").2 = Decision.allow := by
  constructor
  · exact ((adblock_filter_decision _ _ _).1 (by decide)).mpr
      ⟨"ads", by decide, by decide⟩
  · exact (adblock_filter_decision _ _ _).2 (by decide)

/-- C2: loading settings when the settings file does not exist returns
exactly the default record. -/
theorem load_settings_missing_file_defaults :
    Browser.load_settings none =
      [("ad_block_enabled", PyVal.bool true),
       ("dark_mode", PyVal.bool false),
       ("search_engine", PyVal.str "DuckDuckGo")] := rfl

/-- C3: saving the settings record to the settings file (the dialog save
action, for any widget state and prior dict) and then loading settings
yields a record equal to the one saved. -/
theorem save_then_load_roundtrip (dlg : SettingsDialogState)
    (settings : PyDict) :
    Browser.load_settings (SettingsDialog.save_settings_and_close dlg settings).2 =
      (SettingsDialog.save_settings_and_close dlg settings).1 := rfl

/-- C4: each of the four search-engine choices produces its documented
URL template with the query appended and spaces replaced by plus signs. -/
theorem get_search_url_templates (settings : PyDict) (q : String) :
    (settings.get "search_engine" (PyVal.str "DuckDuckGo") = PyVal.str "DuckDuckGo" →
      Browser.get_search_url settings q =
        "https://duckduckgo.com/?q=" ++ pyReplaceChar q ' ' '+') ∧
    (settings.get "search_engine" (PyVal.str "DuckDuckGo") = PyVal.str "Google" →
      Browser.get_search_url settings q =
        "https://www.google.com/search?q=" ++ pyReplaceChar q ' ' '+') ∧
    (settings.get "search_engine" (PyVal.str "DuckDuckGo") = PyVal.str "Startpage" →
      Browser.get_search_url settings q =
        "https://www.startpage.com/do/search?query=" ++ pyReplaceChar q ' ' '+') ∧
    (settings.get "search_engine" (PyVal.str "DuckDuckGo") = PyVal.str "Brave" →
      Browser.get_search_url settings q =
        "https://search.brave.com/search?q=" ++ pyReplaceChar q ' ' '+') := by
  refine ⟨?_, ?_, ?_, ?_⟩ <;> intro h <;> simp [Browser.get_search_url, h]

/-- Witness for C4: the four templates at a concrete query containing a
space. -/
theorem get_search_url_templates_witness :
    Browser.get_search_url [("search_engine", PyVal.str "DuckDuckGo")] "a b" =
      "https://duckduckgo.com/?q=a+b" ∧
    Browser.get_search_url [("search_engine", PyVal.str "Google")] "a b" =
      "https://www.google.com/search?q=a+b" ∧
    Browser.get_search_url [("search_engine", PyVal.str "Startpage")] "a b" =
      "https://www.startpage.com/do/search?query=a+b" ∧
    Browser.get_search_url [("search_engine", PyVal.str "Brave")] "a b" =
      "https://search.brave.com/search?q=a+b" := by
  refine ⟨?_, ?_, ?_, ?_⟩
  · exact ((get_search_url_templates _ "a b").1 (by decide)).trans (by decide)
  · exact ((get_search_url_templates _ "a b").2.1 (by decide)).trans (by decide)
  · exact ((get_search_url_templates _ "a b").2.2.1 (by decide)).trans (by decide)
  · exact ((get_search_url_templates _ "a b").2.2.2 (by decide)).trans (by decide)

/-- C5: a missing blocklist file yields an empty blocklist set, and with
that set no request is ever blocked, for every settings dict and URL. -/
theorem missing_blocklist_fail_open (settings : PyDict) (url : String) :
    AdBlocker.initBlockedDomains none = [] ∧
    (AdBlocker.interceptRequest
      ⟨settings, AdBlocker.initBlockedDomains none⟩ url).2 = Decision.allow := by
  refine ⟨rfl, ?_⟩
  unfold AdBlocker.interceptRequest
  split
  · rfl
  · simp [AdBlocker.initBlockedDomains]

/-- C6: both the dialog save action and the window-close handler write the
settings file, and in both cases the file afterwards holds (the JSON
serialization of) the current in-memory record. -/
theorem settings_persisted_on_save_and_close (dlg : SettingsDialogState)
    (settings : PyDict) :
    (SettingsDialog.save_settings_and_close dlg settings).2 =
      some (SettingsDialog.save_settings_and_close dlg settings).1 ∧
    Browser.closeEvent settings = some settings := ⟨rfl, rfl⟩

/-- C7: the request-filter callback mutates nothing: for every object
state and URL, the settings dict and the blocklist set after the call are
the ones before it. -/
theorem interceptRequest_frame (self : AdBlockerState) (url : String) :
    (AdBlocker.interceptRequest self url).1 = self := by
  unfold AdBlocker.interceptRequest
  split
  · rfl
  · split <;> rfl

/-- C8: the blocklist parser strips every line and discards lines that
are empty after stripping, so the empty string is never an element of the
blocklist set and every element is the stripped form of some line of the
file. -/
theorem blocklist_lines_stripped_nonempty (content : String) :
    "" ∉ AdBlocker.initBlockedDomains (some content) ∧
    ∀ l ∈ AdBlocker.initBlockedDomains (some content),
      ∃ line ∈ content.data.splitOn '\n', l = pyStrip (String.mk line) := by
  constructor
  · intro h
    unfold AdBlocker.initBlockedDomains at h
    rw [List.mem_dedup, List.mem_filter] at h
    simp [String.truthyStr] at h
  · intro l hl
    unfold AdBlocker.initBlockedDomains at hl
    rw [List.mem_dedup, List.mem_filter, List.mem_map] at hl
    obtain ⟨⟨line, hline, rfl⟩, hne⟩ := hl
    exact ⟨line, hline, rfl⟩

/-- Witness for C8 at a concrete blocklist file with a padded line and a
whitespace-only line. -/
theorem blocklist_lines_stripped_nonempty_witness :
    "" ∉ AdBlocker.initBlockedDomains (some "  ads.com  \n   \n") ∧
    ∃ line ∈ ("  ads.com  \n   \n" : String).data.splitOn '\n',
      "ads.com" = pyStrip (String.mk line) := by
  refine ⟨(blocklist_lines_stripped_nonempty _).1, ?_⟩
  exact (blocklist_lines_stripped_nonempty "  ads.com  \n   \n").2 "ads.com" (by decide)

/-- C9: the navigation operation loads the address-bar text verbatim when
it starts with "http", and otherwise loads the search URL built from the
current settings with the text as query. -/
theorem navigate_to_url_dispatch (settings : PyDict) (text : String) :
    (pyStartsWith text "http" = true →
      Browser.navigate_to_url settings text = text) ∧
    (pyStartsWith text "http" = false →
      Browser.navigate_to_url settings text =
        Browser.get_search_url settings text) := by
  constructor <;> intro h <;> simp [Browser.navigate_to_url, h]

/-- Witness for C9 at a concrete URL-like text and a concrete query
text. -/
theorem navigate_to_url_dispatch_witness :
    Browser.navigate_to_url [] "http://example.com" = "http://example.com" ∧
    Browser.navigate_to_url [] "cats" = Browser.get_search_url [] "cats" :=
  ⟨(navigate_to_url_dispatch _ _).1 (by decide),
   (navigate_to_url_dispatch _ _).2 (by decide)⟩

/-- C10: the search-URL construction is total (the Lean model is a total
function, as every branch of the Python code returns), and when the
search-engine setting is absent or is a string other than the four
documented choices, it returns the DuckDuckGo template. -/
theorem get_search_url_total_default (settings : PyDict) (q : String)
    (h : settings.get? "search_engine" = none ∨
      ∃ s : String,
        settings.get "search_engine" (PyVal.str "DuckDuckGo") = PyVal.str s ∧
        s ∉ (["DuckDuckGo", "Google", "Startpage", "Brave"] : List String)) :
    Browser.get_search_url settings q =
      "https://duckduckgo.com/?q=" ++ pyReplaceChar q ' ' '+' := by
  rcases h with h | ⟨s, hs, hmem⟩
  · have hd : settings.get "search_engine" (PyVal.str "DuckDuckGo") =
        PyVal.str "DuckDuckGo" := by
      unfold PyDict.get
      rw [h]
      rfl
    simp [Browser.get_search_url, hd]
  · simp only [List.mem_cons, List.mem_singleton, not_or] at hmem
    obtain ⟨h1, h2, h3, h4⟩ := hmem
    simp [Browser.get_search_url, hs, h1, h2, h3, h4]

/-- Witness for C10 at a concrete unknown engine string and a query with
a space. -/
theorem get_search_url_total_default_witness :
    Browser.get_search_url [("search_engine", PyVal.str "Bing")] "a b" =
      "https://duckduckgo.com/?q=a+b" :=
  (get_search_url_total_default [("search_engine", PyVal.str "Bing")] "a b"
    (Or.inr ⟨"Bing", by decide, by decide⟩)).trans (by decide)
